import Mathlib

set_option maxRecDepth 1000000

/-!
# Verification of the walk-forward prediction / resilient data-loading core

Shallow embedding of the core modules of the `worldmarketreviewer` repository:

* `feature_engineering.py` (`build_features`)
* `walk_forward.py` (`walk_forward_predict_proba`)
* `model_cache.py` (`get_cached_model` / `set_cached_model`)
* `market_data.py` (`get_daily_prices` / `get_monthly_prices`)
* `data_loader.py` (`load_stock_data` and its helpers)
* `api.py` (`_run_one_ticker`, `run_phase2`, `run_status`) and the
  `db.py` run-state operations

Conventions of the embedding:

* pandas float cells are modelled by `PF` below: a rational payload plus
  the IEEE NaN and signed-infinity elements, with the propagation rules of
  the operations actually used by the source;
* dates are modelled as integers (days), cache timestamps as integers
  (hours); exact rational arithmetic stands in for float arithmetic;
* fallible Python code is modelled with `Except String`, an uncaught
  exception being `.error msg`;
* the `RandomForestClassifier` fit/predict pair is kept abstract: the
  theorems are parametric in it, because every property proved here is
  decided before (or independently of) the classifier call.
-/

namespace WMR

/-- A pandas float cell: NaN, +inf, -inf, or an exact rational standing in
for a finite float. -/
inductive PF where
  | nan : PF
  | inf : PF
  | ninf : PF
  | q : ℚ → PF
deriving DecidableEq, Repr

namespace PF

/-- Is the cell NaN?  `DataFrame.dropna` removes exactly the rows with a
NaN cell (infinities are kept). -/
def isNan : PF → Bool
  | .nan => true
  | _ => false

/-- Is the cell a finite value? -/
def isFinite : PF → Bool
  | .q _ => true
  | _ => false

/-- Float addition on the modelled domain. -/
def add : PF → PF → PF
  | .nan, _ => .nan
  | _, .nan => .nan
  | .inf, .ninf => .nan
  | .ninf, .inf => .nan
  | .inf, _ => .inf
  | _, .inf => .inf
  | .ninf, _ => .ninf
  | _, .ninf => .ninf
  | .q a, .q b => .q (a + b)

/-- Float subtraction. -/
def sub : PF → PF → PF
  | .nan, _ => .nan
  | _, .nan => .nan
  | .inf, .inf => .nan
  | .ninf, .ninf => .nan
  | .inf, _ => .inf
  | .ninf, _ => .ninf
  | _, .inf => .ninf
  | _, .ninf => .inf
  | .q a, .q b => .q (a - b)

/-- Float division, with the numpy conventions for division by zero:
`x/0 = ±inf` for `x ≠ 0` and `0/0 = NaN`. -/
def div : PF → PF → PF
  | .nan, _ => .nan
  | _, .nan => .nan
  | .inf, .inf => .nan
  | .inf, .ninf => .nan
  | .ninf, .inf => .nan
  | .ninf, .ninf => .nan
  | .inf, .q b => if b < 0 then .ninf else .inf
  | .ninf, .q b => if b < 0 then .inf else .ninf
  | .q _, .inf => .q 0
  | .q _, .ninf => .q 0
  | .q a, .q b =>
      if b = 0 then (if a = 0 then .nan else if a > 0 then .inf else .ninf)
      else .q (a / b)

/-- Float strict comparison as pandas evaluates it inside
`(x > y).astype(int)`: any comparison with NaN is `False`. -/
def gt : PF → PF → Bool
  | .nan, _ => false
  | _, .nan => false
  | .inf, .inf => false
  | .inf, _ => true
  | _, .inf => false
  | .ninf, .ninf => false
  | _, .ninf => true
  | .ninf, _ => false
  | .q a, .q b => a > b

end PF

/-! ## `feature_engineering.py` — `build_features`

The source (`src/feature_engineering.py`) lower-cases the columns and then
derives, from the `close` column: `return_1`, `return_5` (pct_change),
`sma_20`, `sma_50`, `sma_200` (rolling means), `trend`
(`(sma_50 > sma_200).astype(int)`), `vol_20` (rolling std of `return_1`),
`rsi_14`, and `target = (close.shift(-1) > close).astype(int)`, then does
`dropna().reset_index(drop=True)`.

The input is modelled as the list of `close` values (the loader hands the
function a single price column; prices are parsed floats, never NaN).
Column arithmetic is positional: entry `i` of each derived column is a
function of the input prices, written below as `... At` functions.
-/

/-- One row of the output of `build_features`: the original `close` value
plus every derived column.  `trend` and `target` are `int64` columns in
pandas (an `astype(int)` of a boolean comparison), hence never NaN; the
remaining derived columns are floats. -/
structure FeatureRow where
  close : ℚ
  return_1 : PF
  return_5 : PF
  sma_20 : PF
  sma_50 : PF
  sma_200 : PF
  trend : Int
  vol_20 : PF
  rsi_14 : PF
  target : Int
deriving DecidableEq, Repr

/-- `close.pct_change(k)` at position `i`: NaN for `i < k`, otherwise
`close[i]/close[i-k] - 1` with float division semantics. -/
def pctChangeAt (prices : List ℚ) (k i : Nat) : PF :=
  if i < k then PF.nan
  else PF.sub (PF.div (PF.q (prices.getD i 0)) (PF.q (prices.getD (i - k) 0))) (PF.q 1)

/-- `close.rolling(k).mean()` at position `i`: NaN until `k` observations
are available (`min_periods` defaults to the window size), otherwise the
mean of `close[i-k+1 .. i]`. -/
def smaAt (prices : List ℚ) (k i : Nat) : PF :=
  if i + 1 < k then PF.nan
  else PF.q ((((List.range k).map (fun j => prices.getD (i - j) 0)).sum) / (k : ℚ))

/-- `close.diff()` at position `i` (NaN at position 0). -/
def diffAt (prices : List ℚ) (i : Nat) : PF :=
  if i < 1 then PF.nan
  else PF.q (prices.getD i 0 - prices.getD (i - 1) 0)

/-- `delta.clip(lower=0)` at position `i` (the `gain` series). -/
def gainAt (prices : List ℚ) (i : Nat) : PF :=
  match diffAt prices i with
  | PF.q x => PF.q (max x 0)
  | v => v

/-- `-delta.clip(upper=0)` at position `i` (the `loss` series). -/
def lossAt (prices : List ℚ) (i : Nat) : PF :=
  match diffAt prices i with
  | PF.q x => PF.q (max (-x) 0)
  | v => v

/-- `series.rolling(k).mean()` over an already-computed `PF` series given
as a position function: NaN while fewer than `k` positions exist or when
any cell of the window is not finite, otherwise the exact mean. -/
def rollingMeanAt (cell : Nat → PF) (k i : Nat) : PF :=
  if i + 1 < k then PF.nan
  else
    let window := (List.range k).map (fun j => cell (i - j))
    if window.all PF.isFinite then
      PF.q (((window.map (fun v => match v with | PF.q x => x | _ => 0)).sum) / (k : ℚ))
    else PF.nan

/-- `series.rolling(k).std()` (sample standard deviation, `ddof=1`) over a
`PF` series, recorded through its square.  NaN exactly when pandas gives
NaN (fewer than `k` positions, or a non-finite cell in the window).  The
source stores the square root of this value; since the square root of a
rational is in general irrational, the embedding records the sample
variance instead.  The map `x ↦ √x` sends NaN to NaN and finite
non-negatives to finite non-negatives, so every property proved below
(all of which depend only on which cells are NaN, never on the magnitude
of this column) is unaffected. -/
def rollingStdSqAt (cell : Nat → PF) (k i : Nat) : PF :=
  if i + 1 < k then PF.nan
  else
    let window := (List.range k).map (fun j => cell (i - j))
    if window.all PF.isFinite then
      let xs := window.map (fun v => match v with | PF.q x => x | _ => 0)
      let m := xs.sum / (k : ℚ)
      PF.q (((xs.map (fun x => (x - m) ^ 2)).sum) / ((k : ℚ) - 1))
    else PF.nan

/-- `rsi_14` at position `i`:
`100 - 100 / (1 + avg_gain/avg_loss)` with float semantics (an all-gain
window gives `rs = +inf` and hence `rsi = 100`; a zero/zero window gives
NaN). -/
def rsiAt (prices : List ℚ) (i : Nat) : PF :=
  let avgGain := rollingMeanAt (gainAt prices) 14 i
  let avgLoss := rollingMeanAt (lossAt prices) 14 i
  let rs := PF.div avgGain avgLoss
  PF.sub (PF.q 100) (PF.div (PF.q 100) (PF.add (PF.q 1) rs))

/-- `target = (close.shift(-1) > close).astype(int)` at position `i`.
Beyond the end of the series `shift(-1)` is NaN, the comparison is
`False`, and `astype(int)` turns it into `0` — the target of the final
row is therefore the integer 0, not NaN. -/
def targetAt (prices : List ℚ) (i : Nat) : Int :=
  if i + 1 < prices.length then
    (if prices.getD (i + 1) 0 > prices.getD i 0 then 1 else 0)
  else 0

/-- The full feature row computed at position `i`. -/
def featRow (prices : List ℚ) (i : Nat) : FeatureRow :=
  let sma50 := smaAt prices 50 i
  let sma200 := smaAt prices 200 i
  { close := prices.getD i 0
    return_1 := pctChangeAt prices 1 i
    return_5 := pctChangeAt prices 5 i
    sma_20 := smaAt prices 20 i
    sma_50 := sma50
    sma_200 := sma200
    trend := if PF.gt sma50 sma200 then 1 else 0
    vol_20 := rollingStdSqAt (pctChangeAt prices 1) 20 i
    rsi_14 := rsiAt prices i
    target := targetAt prices i }

/-- `dropna` keeps a row iff none of its float cells is NaN (`close` is a
parsed price, `trend` and `target` are int columns). -/
def rowOk (r : FeatureRow) : Bool :=
  !r.return_1.isNan && !r.return_5.isNan && !r.sma_20.isNan &&
    !r.sma_50.isNan && !r.sma_200.isNan && !r.vol_20.isNan && !r.rsi_14.isNan

/-- `build_features` (src/feature_engineering.py): compute every derived
column positionally, then `dropna().reset_index(drop=True)`. -/
def build_features (prices : List ℚ) : List FeatureRow :=
  ((List.range prices.length).map (featRow prices)).filter rowOk

/-! ## `model_cache.py`

A process-memory dict from a string key to a fitted model.  The key is
computed from the ticker alone (`(ticker or "").upper().strip()`); no
horizon enters the key anywhere in the source.  The module-level dict is
made an explicit argument (association list with Python-dict update
semantics: overwrite in place, else append). -/

/-- Python dict assignment `d[k] = v`: overwrites the value of an existing
key in place, otherwise appends the new binding. -/
def dictSet {β : Type} (d : List (String × β)) (k : String) (v : β) :
    List (String × β) :=
  if d.any (fun e => e.1 = k) then
    d.map (fun e => if e.1 = k then (k, v) else e)
  else d ++ [(k, v)]

/-- Python dict lookup `d.get(k)`. -/
def dictGet {β : Type} (d : List (String × β)) (k : String) : Option β :=
  (d.find? (fun e => e.1 = k)).map (fun e => e.2)

/-- `model_cache.get_cached_model`: key is the uppercased, stripped
ticker; an empty key yields `None`. -/
def get_cached_model {M : Type} (cache : List (String × M)) (ticker : String) :
    Option M :=
  let key := ticker.toUpper.trim
  if key = "" then none else dictGet cache key

/-- `model_cache.set_cached_model`: same key computation; an empty key is
ignored. -/
def set_cached_model {M : Type} (cache : List (String × M)) (ticker : String)
    (model : M) : List (String × M) :=
  let key := ticker.toUpper.trim
  if key = "" then cache else dictSet cache key model

/-! ## `walk_forward.py` — `walk_forward_predict_proba`

The DataFrame handed to the predictor is modelled by its column-name list
plus one cell-lookup function per row (`none` = NaN cell).  The
`RandomForestClassifier` is abstract: `_train_model` and
`_predict_prob_up` are parameters (`fitModel` / `predictProbUp`), since
every property proved below is decided before the classifier runs or is
independent of its output.  The function returns the probability for the
last row, a flag recording whether a model was fitted on this call
(`didFit`), and the updated model cache. -/

/-- The slice of a walk-forward DataFrame that the predictor sees. -/
structure WFrame where
  cols : List String
  rows : List (String → Option ℚ)

/-- `df.iloc[a:b]` on the modelled frame. -/
def WFrame.iloc (df : WFrame) (a b : Nat) : WFrame :=
  { df with rows := (df.rows.drop a).take (b - a) }

/-- Python `int()` on a float/rational: truncation toward zero. -/
def pyInt (x : ℚ) : Int :=
  if 0 ≤ x then Int.floor x else Int.ceil x

/-- Result of one call of the predictor: probability for the last row,
whether a model was fitted during the call, and the model cache after the
call. -/
structure WFResult (M : Type) where
  prob : ℚ
  didFit : Bool
  cache : List (String × M)

/-- `walk_forward.walk_forward_predict_proba` (src/walk_forward.py).

Paths, in source order: too-short inputs return the neutral `0.5`; a
missing feature or target column returns `0.5`; an empty (all-NaN) target
window returns `0.5`; a single-class target window returns that class
indicator (`1.0`/`0.0`) without fitting; otherwise the model comes from
the cache (`retrain=False` and a non-empty ticker key) or is fitted and
stored, and the predicted probability is clamped to `[0, 1]`. -/
def walk_forward_predict_proba {M : Type}
    (fitModel : WFrame → M) (predictProbUp : M → WFrame → ℚ)
    (cache : List (String × M))
    (df : WFrame) (feature_cols : List String) (target_col : String)
    (ticker : Option String) (retrain : Bool)
    (lookback : Nat := 252) (min_train : Nat := 60) : WFResult M :=
  if df.rows.length < 2 then ⟨1/2, false, cache⟩
  else if df.rows.length < max 10 (min_train + 1) then ⟨1/2, false, cache⟩
  else
    let end_idx := df.rows.length - 1
    let start_idx := end_idx - lookback
    let train := df.iloc start_idx end_idx
    let test := df.iloc end_idx (end_idx + 1)
    let missing := feature_cols.filter (fun c => !df.cols.contains c)
    if missing ≠ [] then ⟨1/2, false, cache⟩
    else if ¬ df.cols.contains target_col then ⟨1/2, false, cache⟩
    else
      -- `pd.Series(train[target_col]).dropna().unique()`; `dedup` orders the
      -- distinct values differently from pandas, but only their number (0, 1
      -- or more) and the sole element of a singleton are ever consumed
      let unique_targets := ((train.rows.map (fun r => r target_col)).filterMap id).dedup
      if unique_targets.length = 0 then ⟨1/2, false, cache⟩
      else if unique_targets.length = 1 then
        let only := pyInt (unique_targets.headD 0)
        ⟨if only = 1 then 1 else 0, false, cache⟩
      else
        let cache_key : Option String :=
          match ticker with
          | none => none
          | some t => if t = "" then none else
              (let k := t.toUpper.trim; if k = "" then none else some k)
        let cached : Option M :=
          if ¬ retrain then cache_key.bind (fun k => dictGet cache k) else none
        match cached with
        | some m => ⟨max 0 (min 1 (predictProbUp m test)), false, cache⟩
        | none =>
            let m := fitModel train
            let cache' :=
              match cache_key with
              | some k => dictSet cache k m
              | none => cache
            ⟨max 0 (min 1 (predictProbUp m test)), true, cache'⟩

/-! ## `market_data.py` — provider fallback chains

A normalized price series is a list of `(date, price)` rows (dates as
integer days, prices exact rationals; rows with unparseable cells were
dropped by the normalizers).  Each provider leg is modelled by its
outcome: `.error msg` when the provider helper raised, `.ok rows` when it
returned a normalized frame (for the yfinance leg the normalizer can
return an *empty* frame without raising; the stooq / alpha-vantage helpers
raise on empty, but the model lets any leg return anything and follows the
the checks of the source). -/

/-- A normalized `[date, price]` series. -/
abbrev Series := List (Int × ℚ)

/-- Outcome of one provider helper. -/
abbrev ProvRes := Except String Series

/-- A provider leg counts as failed for the fallback chain when it raised
or returned an empty normalized frame (`if out is not None and not
out.empty` is the success guard in the source). -/
def failsOrEmpty (r : ProvRes) : Bool :=
  match r with
  | .ok s => s.isEmpty
  | .error _ => true

/-- Step 3 of the daily chain plus the final raise
(`market_data.get_daily_prices` lines for alpha vantage and the closing
`raise RuntimeError(f"All data sources failed ... Last error: {last}")`).
`last` holds the most recent provider failure text; if no provider ever
raised (every leg returned an empty frame without raising) the f-string
would hit an unbound `last`, which is itself a `NameError`. -/
def dailyAllFailed (t : String) (last : Option String) : Except String Series :=
  match last with
  | some l => .error ("All data sources failed for " ++ t ++ ". Last error: " ++ l)
  | none => .error "NameError: name last is not defined"

/-- Alpha-vantage leg of `get_daily_prices`. -/
def dailyTryAlpha (t : String) (last : Option String) (p3 : ProvRes) :
    Except String Series :=
  match p3 with
  | .ok s => if s.isEmpty then dailyAllFailed t last else .ok s
  | .error e => dailyAllFailed t (some ("alpha vantage failed: " ++ e))

/-- Stooq leg of `get_daily_prices`. -/
def dailyTryStooq (t : String) (last : Option String) (p2 p3 : ProvRes) :
    Except String Series :=
  match p2 with
  | .ok s => if s.isEmpty then dailyTryAlpha t last p3 else .ok s
  | .error e => dailyTryAlpha t (some ("stooq failed: " ++ e)) p3

/-- `market_data.get_daily_prices`: normalize the ticker, return an empty
frame for an empty ticker, then try yfinance → stooq → alpha vantage,
short-circuiting on the first non-empty normalized result and remembering
the last failure text. -/
def get_daily_prices (ticker : String) (p1 p2 p3 : ProvRes) :
    Except String Series :=
  let t := ticker.toUpper.trim
  if t = "" then .ok []
  else
    match p1 with
    | .ok s => if s.isEmpty then dailyTryStooq t none p2 p3 else .ok s
    | .error e => dailyTryStooq t (some e) p2 p3

/-- Final raise of `get_monthly_prices`. -/
def monthlyAllFailed (t : String) (last : Option String) : Except String Series :=
  match last with
  | some l => .error ("All monthly data sources failed for " ++ t ++ ". Last error: " ++ l)
  | none => .error "NameError: name last is not defined"

/-- Alpha-vantage (resampled) leg of `get_monthly_prices`. -/
def monthlyTryAlpha (t : String) (last : Option String) (p3 : ProvRes) :
    Except String Series :=
  match p3 with
  | .ok s => if s.isEmpty then monthlyAllFailed t last else .ok s
  | .error e => monthlyAllFailed t (some ("alpha->monthly failed: " ++ e))

/-- Stooq (resampled) leg of `get_monthly_prices`. -/
def monthlyTryStooq (t : String) (last : Option String) (p2 p3 : ProvRes) :
    Except String Series :=
  match p2 with
  | .ok s => if s.isEmpty then monthlyTryAlpha t last p3 else .ok s
  | .error e => monthlyTryAlpha t (some ("stooq->monthly failed: " ++ e)) p3

/-- `market_data.get_monthly_prices`: same chain shape with the monthly
legs. -/
def get_monthly_prices (ticker : String) (p1 p2 p3 : ProvRes) :
    Except String Series :=
  let t := ticker.toUpper.trim
  if t = "" then .ok []
  else
    match p1 with
    | .ok s => if s.isEmpty then monthlyTryStooq t none p2 p3 else .ok s
    | .error e => monthlyTryStooq t (some e) p2 p3

/-! ## `data_loader.py`

`_live_fetch_daily` / `_live_fetch_monthly` execute
`raw, src = get_daily_prices(ticker, period=period)`.  The right-hand
side is a single pandas DataFrame with columns `[date, price]`;
The Python tuple unpacking iterates a DataFrame over its *column labels*,
so `raw` and `src` are bound to the two column-name strings, and the
subsequent `raw.empty` attribute access on a `str` raises
`AttributeError`.  The model mirrors those dynamic semantics step by
step. -/

/-- The DataFrame view relevant to unpacking: its column labels. -/
structure Frame where
  cols : List String
  rows : Series

/-- Every return path of `get_daily_prices` / `get_monthly_prices`
produces a `[date, price]` frame. -/
def frameOfSeries (s : Series) : Frame := ⟨["date", "price"], s⟩

/-- Python unpacking `a, b = df`: iterating a DataFrame yields its column
labels; unpacking succeeds iff there are exactly two. -/
def unpack2 (f : Frame) : Except String (String × String) :=
  match f.cols with
  | [a, b] => .ok (a, b)
  | _ => .error "ValueError: unexpected number of values to unpack"

/-- The attribute access `raw.empty` when `raw` is a `str`. -/
def pyStrEmptyAttr (s : String) : Except String Bool :=
  .error ("AttributeError: " ++ s ++ " is a str and has no attribute empty")

/-- `data_loader._live_fetch_daily`: unpack the frame returned by
`get_daily_prices`, test `raw is None` (false for a string), then access
`raw.empty` — which raises before the cleaning, the cache write
(`_save_cached_prices`) or the return are ever reached. -/
def live_fetch_daily (ticker : String) (p1 p2 p3 : ProvRes) :
    Except String (Series × String) := do
  let s ← get_daily_prices ticker p1 p2 p3
  let (raw, _src) ← unpack2 (frameOfSeries s)
  let _empty ← pyStrEmptyAttr raw
  .error "unreachable: the attribute access above has already raised"

/-- `data_loader._live_fetch_monthly`: identical shape over the monthly
chain. -/
def live_fetch_monthly (ticker : String) (p1 p2 p3 : ProvRes) :
    Except String (Series × String) := do
  let s ← get_monthly_prices ticker p1 p2 p3
  let (raw, _src) ← unpack2 (frameOfSeries s)
  let _empty ← pyStrEmptyAttr raw
  .error "unreachable: the attribute access above has already raised"

/-- The parsed content of one on-disk cache file: the normalized
`(date, price)` rows and the maximum parsed `fetched_at_utc` timestamp
(in hours; `none` when the column is absent or unparseable). -/
structure CacheData where
  rows : Series
  fetchedAt : Option Int

/-- The environment of one `load_stock_data` call for a ticker: the cache
file (already parsed; `none` = file absent or unreadable, in the source a
`CacheCorrupt` file also yields `None`), the rows of the ticker in the
developer `monthly_prices.csv` fallback, the three provider outcomes per
frequency, and the wall clock (hours). -/
structure LoaderEnv where
  cache : Option CacheData
  monthlyCsv : Option Series
  dailyP1 : ProvRes
  dailyP2 : ProvRes
  dailyP3 : ProvRes
  monthlyP1 : ProvRes
  monthlyP2 : ProvRes
  monthlyP3 : ProvRes
  now : Int

/-- Frequency argument of `load_stock_data` (already normalized). -/
inductive Freq where
  | daily
  | monthly
deriving DecidableEq, Repr

/-- Normalized `source` argument: `"cache"`, `"auto"`, or any other
string (e.g. `"yfinance"` or `"live"`), which the source treats as
live-first-with-cache-fallback. -/
inductive Mode where
  | cache
  | auto
  | liveFirst
deriving DecidableEq, Repr

/-- Provenance tag recorded in `df.attrs` source entry. -/
inductive Tag where
  | cache
  | cacheStale
  | monthlyCsv
  | live
deriving DecidableEq, Repr

/-- Side effects of one `load_stock_data` call that the claims speak
about: whether the live-fetch branch was entered and whether
`_save_cached_prices` wrote a new cache entry. -/
structure LoadEffects where
  calledLive : Bool
  wroteCache : Bool
deriving DecidableEq, Repr

/-- `data_loader.CACHE_TTL_HOURS_DAILY` / `..._MONTHLY`. -/
def ttlHours : Freq → Int
  | .daily => 24
  | .monthly => 24 * 7

/-- `data_loader._load_cached_prices`: `None` for a missing/corrupt file
and for a file whose parsed rows are empty. -/
def load_cached_prices (env : LoaderEnv) : Option CacheData :=
  match env.cache with
  | none => none
  | some c => if c.rows.isEmpty then none else some c

/-- `data_loader._is_cache_fresh`: fresh iff a `fetched_at_utc` value
parsed and `now - fetched.max() <= TTL`. -/
def is_cache_fresh (c : CacheData) (now ttl : Int) : Bool :=
  if c.rows.isEmpty then false
  else
    match c.fetchedAt with
    | none => false
    | some f => now - f ≤ ttl

/-- `data_loader._load_from_monthly_prices_csv`: `None` when the file is
missing, unparseable, or holds no rows for the ticker. -/
def load_from_monthly_prices_csv (env : LoaderEnv) : Option Series :=
  match env.monthlyCsv with
  | none => none
  | some s => if s.isEmpty then none else some s

/-- Largest date of a series (used by the lookback trim). -/
def maxDate (s : Series) : Int :=
  (s.map Prod.fst).foldl max 0

/-- The lookback trim of `load_stock_data`: keep the rows dated within
`lookback_days` of `index.max()` (no trim when no lookback is given). -/
def trimRows (rows : Series) (lookback_days : Option Int) : Series :=
  match lookback_days with
  | none => rows
  | some lb => rows.filter (fun r => maxDate rows - lb ≤ r.1)

/-- The tail of `load_stock_data`: the `out is None or out.empty` check,
the lookback trim to `index.max() - lookback_days`, and the minimum-row
check `len(out) < 30`. -/
def loadFinalize (rows : Series) (tag : Tag) (lookback_days : Option Int)
    (eff : LoadEffects) : Option (Series × Tag) × LoadEffects :=
  if rows.isEmpty then (none, eff)
  else
    let trimmed := trimRows rows lookback_days
    if trimmed.length < 30 then (none, eff) else (some (trimmed, tag), eff)

/-- The live-fetch step of `load_stock_data` for the requested frequency,
together with its effects: entering the branch is a live call, and a new
cache entry is written exactly when `_live_fetch_*` reaches its
`_save_cached_prices` line, which happens iff the fetch returns
normally. -/
def loadLiveStep (env : LoaderEnv) (ticker : String) (freq : Freq) :
    Except String (Series × String) × LoadEffects :=
  let r :=
    match freq with
    | .monthly => live_fetch_monthly ticker env.monthlyP1 env.monthlyP2 env.monthlyP3
    | .daily => live_fetch_daily ticker env.dailyP1 env.dailyP2 env.dailyP3
  (r, ⟨true, r.isOk⟩)

/-- `data_loader.load_stock_data` (src/data_loader.py lines 173-259),
returning the resulting `(rows, source-tag)` (or `None`) plus the side
effects of the call. -/
def load_stock_data (env : LoaderEnv) (ticker : String)
    (lookback_days : Option Int) (freq : Freq) (source : Mode) :
    Option (Series × Tag) × LoadEffects :=
  let noEff : LoadEffects := ⟨false, false⟩
  let ttl := ttlHours freq
  let cached := load_cached_prices env
  let fresh :=
    match cached with
    | some c => is_cache_fresh c env.now ttl
    | none => false
  let out_cached : Option (Series × Tag) :=
    cached.map (fun c => (c.rows, if fresh then Tag.cache else Tag.cacheStale))
  match source with
  | .cache =>
      match out_cached with
      | none => (none, noEff)
      | some (rows, tag) => loadFinalize rows tag lookback_days noEff
  | _ =>
      let out0 : Option (Series × Tag) :=
        if source = .auto ∧ fresh = true then out_cached else none
      let out1 : Option (Series × Tag) :=
        match out0 with
        | some o => some o
        | none =>
            if freq = .monthly then
              (load_from_monthly_prices_csv env).map (fun s => (s, Tag.monthlyCsv))
            else none
      match out1 with
      | some (rows, tag) => loadFinalize rows tag lookback_days noEff
      | none =>
          match loadLiveStep env ticker freq with
          | (.ok (rows, _src), eff) => loadFinalize rows Tag.live lookback_days eff
          | (.error _, eff) =>
              match out_cached with
              | some (rows, tag) =>
                  if rows.isEmpty then (none, eff)
                  else loadFinalize rows tag lookback_days eff
              | none => (none, eff)

/-! ## `db.py` — run-state tracking and prediction persistence

The `run_state` row for the active `run_id` and the `predictions` table,
modelled for a single run.  The `started_at` / `finished_at` timestamp
strings never figure in any claim and are omitted from the row.  The
stored prediction payload is kept abstract (`α`): `run_phase2` persists
whatever `_run_one_ticker` returned without inspecting it. -/

/-- One `run_state` row. -/
structure RunRow where
  status : String
  total : Nat
  completed : Nat
deriving DecidableEq, Repr

/-- The run database: the run-state row of the current run plus the
append-only predictions list. -/
structure RunDB (α : Type) where
  run : Option RunRow
  preds : List α

/-- `db.create_run`: upsert the row as `(running, total, 0)`. -/
def create_run {α : Type} (db : RunDB α) (total : Nat) : RunDB α :=
  { db with run := some ⟨"running", total, 0⟩ }

/-- `db.update_run_progress`: set `completed`. -/
def update_run_progress {α : Type} (db : RunDB α) (completed : Nat) : RunDB α :=
  { db with run := db.run.map (fun r => { r with completed := completed }) }

/-- `db.finish_run`: set `status = finished`. -/
def finish_run {α : Type} (db : RunDB α) : RunDB α :=
  { db with run := db.run.map (fun r => { r with status := "finished" }) }

/-- `db.insert_predictions`: append the batch. -/
def insert_predictions {α : Type} (db : RunDB α) (rows : List α) : RunDB α :=
  { db with preds := db.preds ++ rows }

/-! ## `api.py` — `_run_one_ticker`, `run_phase2`, `run_status`

`_run_one_ticker` loads prices through `_load_prices` (which forwards to
`load_stock_data`), then executes
`build_features(df, horizon_days=horizon_days)`.  The imported
`feature_engineering.build_features` accepts the single parameter `df`,
so Python raises
`TypeError: build_features() got an unexpected keyword argument
horizon_days` at call binding, before the function body runs (the later
`walk_forward_predict_proba(..., horizon_days=...)` call would fail the
same way).  The kwarg binding is modelled explicitly. -/

/-- The parameter list of `feature_engineering.build_features`
(`def build_features(df):`). -/
def buildFeaturesParams : List String := ["df"]

/-- Python call binding for keyword arguments: any keyword not among the
parameters of the callee raises `TypeError` before the body runs. -/
def pyBindKwargs (fname : String) (params kwargs : List String) :
    Except String Unit :=
  match kwargs.find? (fun k => !params.contains k) with
  | some k =>
      .error ("TypeError: " ++ fname ++
        "() got an unexpected keyword argument " ++ k)
  | none => .ok ()

/-- `api._run_one_ticker` (src/api.py lines 420-466): uppercase/trim the
ticker, load daily prices with a six-year lookback, raise
`ValueError("Not enough data")` on a missing or short series, then call
`build_features` with the `horizon_days` keyword argument — which raises
`TypeError` for every ticker, so the pipeline can never return a
prediction.  The per-ticker environment stands for cache/provider state;
the load uses the default source preference `auto` and the prediction
payload type is abstract since no payload is ever built (the intermediate
`_extract_as_of` bookkeeping, which cannot raise, is omitted). -/
def run_one_ticker {α : Type} (env : LoaderEnv) (ticker : String) :
    Except String α :=
  let df := (load_stock_data env (ticker.toUpper.trim)
    (some (365 * 6)) Freq.daily Mode.auto).1
  match df with
  | none => .error "ValueError: Not enough data"
  | some (rows, _tag) =>
      if rows.length < 30 then .error "ValueError: Not enough data"
      else
        match pyBindKwargs "build_features" buildFeaturesParams ["horizon_days"] with
        | .error e => .error e
        | .ok _ => .error "unreachable: the call binding above has already raised"

/-- The part of the `run_phase2` HTTP response the claims mention. -/
structure RunResp where
  status : String
  total : Nat
  stored : Nat
  errors : List (String × String)
deriving DecidableEq, Repr

/-- One step of the `run_phase2` ticker loop: record the success
or failure, bump `completed`, and push the progress row. -/
def runPhase2Step {α : Type} (outcome : String → Except String α)
    (acc : List α × List (String × String) × Nat × RunDB α) (t : String) :
    List α × List (String × String) × Nat × RunDB α :=
  let (results, errors, completed, db) := acc
  let (results, errors) :=
    match outcome t with
    | .ok p => (results ++ [p], errors)
    | .error e => (results, dictSet errors t e)
  (results, errors, completed + 1, update_run_progress db (completed + 1))

/-- `api.run_phase2` (src/api.py lines 1040-1099): create the run row,
process every ticker — collecting per-ticker failures into the errors
dict without aborting siblings — persist the successful predictions in
one batch, mark the run finished, and answer with
`status: "started"`, `stored` and the errors map.  `outcome` is the
per-ticker pipeline (`_run_one_ticker`); `tickers` is the processing
order: the request order when `max_parallel == 1`, and the
`as_completed` completion order (a permutation of the request list) when
`max_parallel > 1` — every property proved below holds for every order. -/
def run_phase2 {α : Type} (db : RunDB α) (outcome : String → Except String α)
    (tickers : List String) : RunResp × RunDB α :=
  let db1 := create_run db tickers.length
  let (results, errors, _completed, db2) :=
    tickers.foldl (runPhase2Step outcome) ([], [], 0, db1)
  let db3 := if results.isEmpty then db2 else insert_predictions db2 results
  let db4 := finish_run db3
  (⟨"started", tickers.length, results.length, errors⟩, db4)

/-- Python `round(x, 1)` (round half to even). -/
def pyRound1 (x : ℚ) : ℚ :=
  let y := x * 10
  let f : Int := Int.floor y
  let r := y - f
  (if r < 1/2 then f else if 1/2 < r then f + 1
   else if f % 2 = 0 then f else f + 1 : Int) / 10

/-- The status payload of `GET /api/run_phase2/status`. -/
structure StatusResp where
  status : String
  completed : Nat
  total : Nat
  pct : ℚ
deriving DecidableEq, Repr

/-- `api.run_status` (src/api.py lines 1102-1118): read the run-state row
and report status, progress and percentage (`None` = the
`"run_id not found"` answer). -/
def run_status {α : Type} (db : RunDB α) : Option StatusResp :=
  db.run.map (fun r =>
    ⟨r.status, r.completed, r.total,
      pyRound1 (100 * (r.completed : ℚ) / max 1 (r.total : ℚ))⟩)

/-! ## Concrete inputs used by counterexamples and witnesses -/

/-- 200 alternating prices `1, 2, 1, 2, …` — long enough for every
rolling window of `build_features` to be populated on the final row, with
both gains and losses in every RSI window. -/
def altPrices200 : List ℚ :=
  (List.range 200).map (fun i => if i % 2 = 0 then (1 : ℚ) else 2)

/-- A parsed cache series of `n` rows (dates `0 … n-1`, price 1). -/
def cacheRows (n : Nat) : Series :=
  (List.range n).map (fun i => ((i : Int), (1 : ℚ)))

/-- Environment with an on-disk cache of `n` rows fetched at hour 0, every
live provider failing, no monthly CSV. -/
def envCache (n : Nat) (now : Int) : LoaderEnv :=
  { cache := some ⟨cacheRows n, some 0⟩
    monthlyCsv := none
    dailyP1 := .error "E1"
    dailyP2 := .error "E2"
    dailyP3 := .error "E3"
    monthlyP1 := .error "M1"
    monthlyP2 := .error "M2"
    monthlyP3 := .error "M3"
    now := now }

/-- Environment with no cache file at all and every provider failing. -/
def envNoCache : LoaderEnv :=
  { envCache 0 0 with cache := none }

/-- A walk-forward row whose `target` cell is `v` and whose feature cell
is 1. -/
def wfTargetRow (v : ℚ) : String → Option ℚ :=
  fun c => if c = "target" then some v else some 1

/-- A walk-forward frame of `n` identical rows with constant target `v`
and columns `["f", "target"]`. -/
def wfConstFrame (n : Nat) (v : ℚ) : WFrame :=
  ⟨["f", "target"], List.replicate n (wfTargetRow v)⟩

/-- Per-ticker loader environment of the end-to-end scenario: `AAPL` has a
40-row fresh cache (ample history), `BADTICKER` has nothing and every
provider fails. -/
def envC8 (t : String) : LoaderEnv :=
  if t = "AAPL" then envCache 40 0 else envNoCache

/-- Per-ticker outcome of the five-ticker orchestrator scenario: ticker
`T3` raises during fetch, every other ticker succeeds. -/
def outcome5 : String → Except String Nat :=
  fun t => if t = "T3" then .error "DataUnavailable: boom" else .ok 1

/-!
# Lemmas and claim theorems
-/

/-! ## Feature builder (C2) -/

/-- The target of the final input row is always the integer `0`: the
shifted price is missing there, the comparison is `False`, and
`astype(int)` yields `0` — never NaN. -/
lemma target_last_row (prices : List ℚ) (h : 1 ≤ prices.length) :
    (featRow prices (prices.length - 1)).target = 0 := by
  have hlt : ¬ (prices.length - 1 + 1 < prices.length) := by omega
  simp [featRow, targetAt, hlt]

/-- If the final input row has no NaN feature, it survives `dropna` and is
the last row of the output of `build_features`. -/
lemma build_features_getLast (prices : List ℚ) (h : 1 ≤ prices.length)
    (hok : rowOk (featRow prices (prices.length - 1)) = true) :
    (build_features prices).getLast? = some (featRow prices (prices.length - 1)) := by
  unfold build_features
  obtain ⟨n, hn⟩ : ∃ n, prices.length = n + 1 := ⟨prices.length - 1, by omega⟩
  have hidx : prices.length - 1 = n := by omega
  rw [hn, List.range_succ, List.map_append, List.filter_append]
  rw [hidx] at hok
  simp only [List.map_cons, List.map_nil, List.filter_cons, hok]
  simp [hidx]

/-- Every row surviving the cleanup has fully populated (non-NaN)
features. -/
lemma build_features_rowOk (prices : List ℚ) :
    ∀ r ∈ build_features prices, rowOk r = true := by
  intro r hr
  exact List.of_mem_filter hr

/-- C2, the claim as stated is false: on 200 alternating prices the output
of `build_features` consists of exactly the feature row of the *final*
input position — the last row is not dropped, and its target is the
integer `0`, not NaN (with the fixed one-row horizon of the source; the
function has no `horizon_days` parameter at all). -/
theorem claim2_counterexample :
    build_features altPrices200 = [featRow altPrices200 199] ∧
      (featRow altPrices200 199).target = 0 := by
  constructor
  · with_unfolding_all rfl
  · with_unfolding_all rfl

/-- C2 amended: `build_features` fixes the horizon at one row.  The
forward comparison yields `False` — hence integer target `0`, never NaN —
on the final row, so the final row survives the NaN cleanup whenever its
*features* are populated and is then the last row of the output, its
features available for prediction; and every surviving row has fully
populated features. -/
theorem claim2_amended_final_row (prices : List ℚ) (h : 1 ≤ prices.length)
    (hok : rowOk (featRow prices (prices.length - 1)) = true) :
    (build_features prices).getLast? = some (featRow prices (prices.length - 1)) ∧
      (featRow prices (prices.length - 1)).target = 0 ∧
      (∀ r ∈ build_features prices, rowOk r = true) :=
  ⟨build_features_getLast prices h hok, target_last_row prices h,
    build_features_rowOk prices⟩

/-- C2 witness: the hypotheses of `claim2_amended_final_row` hold at the
200-row alternating price series, and so does its conclusion. -/
theorem claim2_witness :
    1 ≤ altPrices200.length ∧
      rowOk (featRow altPrices200 (altPrices200.length - 1)) = true ∧
      ((build_features altPrices200).getLast? =
          some (featRow altPrices200 (altPrices200.length - 1)) ∧
        (featRow altPrices200 (altPrices200.length - 1)).target = 0 ∧
        (∀ r ∈ build_features altPrices200, rowOk r = true)) :=
  ⟨by decide, by with_unfolding_all rfl,
    claim2_amended_final_row altPrices200 (by decide) (by with_unfolding_all rfl)⟩

/-! ## Walk-forward predictor (C3) -/

/-- `dedup` of a non-empty constant list. -/
lemma dedup_const (c : ℚ) :
    ∀ (l : List ℚ), l ≠ [] → (∀ y ∈ l, y = c) → l.dedup = [c] := by
  intro l
  induction l with
  | nil => intro h; exact absurd rfl h
  | cons x l ih =>
      intro _ hall
      have hx : x = c := hall x (by simp)
      cases l with
      | nil => simp [hx]
      | cons y l =>
          have hmem : x ∈ y :: l := by
            have hy : y = c := hall y (by simp)
            rw [hx, ← hy]; simp
          rw [List.dedup_cons_of_mem hmem]
          exact ih (by simp) (fun y hy => hall y (List.mem_cons_of_mem x hy))

/-- The `unique()` of a dropna-ed column whose cells are all `c`-or-NaN,
with at least one `c`. -/
lemma filterMap_dedup_const (c : ℚ) (l : List (Option ℚ))
    (hall : ∀ x ∈ l, x = some c ∨ x = none)
    (hex : ∃ x ∈ l, x = some c) :
    (l.filterMap id).dedup = [c] := by
  apply dedup_const
  · obtain ⟨x, hx, hxc⟩ := hex
    have : c ∈ l.filterMap id := List.mem_filterMap.mpr ⟨some c, hxc ▸ hx, rfl⟩
    exact List.ne_nil_of_mem this
  · intro y hy
    obtain ⟨x, hx, hxy⟩ := List.mem_filterMap.mp hy
    rcases hall x hx with h | h
    · rw [h] at hxy; exact (Option.some_injective _ hxy).symm
    · rw [h] at hxy; exact absurd hxy (by simp)

/-- If the targets of the training window are constant at `c` (up to NaN,
with at least one value), `walk_forward_predict_proba` answers the class
indicator of `int(c)` without fitting and leaves the cache unchanged. -/
lemma wf_const_target {M : Type}
    (fitModel : WFrame → M) (predictProbUp : M → WFrame → ℚ)
    (cache : List (String × M)) (df : WFrame)
    (feature_cols : List String) (target_col : String)
    (ticker : Option String) (retrain : Bool) (lookback min_train : Nat) (c : ℚ)
    (hlen : max 10 (min_train + 1) ≤ df.rows.length)
    (hmiss : feature_cols.filter (fun c => !df.cols.contains c) = [])
    (htc : df.cols.contains target_col = true)
    (hall : ∀ r ∈ (df.iloc (df.rows.length - 1 - lookback) (df.rows.length - 1)).rows,
      r target_col = some c ∨ r target_col = none)
    (hex : ∃ r ∈ (df.iloc (df.rows.length - 1 - lookback) (df.rows.length - 1)).rows,
      r target_col = some c) :
    walk_forward_predict_proba fitModel predictProbUp cache df feature_cols
      target_col ticker retrain lookback min_train =
      ⟨if pyInt c = 1 then 1 else 0, false, cache⟩ := by
  have h10 : 10 ≤ df.rows.length := le_trans (le_max_left _ _) hlen
  have h2 : ¬ (df.rows.length < 2) := by omega
  have hm : ¬ (df.rows.length < max 10 (min_train + 1)) := by omega
  have huniq :
      (((df.iloc (df.rows.length - 1 - lookback) (df.rows.length - 1)).rows.map
          (fun r => r target_col)).filterMap id).dedup = [c] := by
    apply filterMap_dedup_const
    · intro x hx
      obtain ⟨r, hr, hrx⟩ := List.mem_map.mp hx
      exact hrx ▸ hall r hr
    · obtain ⟨r, hr, hrc⟩ := hex
      exact ⟨r target_col, List.mem_map.mpr ⟨r, hr, rfl⟩, hrc⟩
  unfold walk_forward_predict_proba
  rw [if_neg h2, if_neg hm]
  simp only [hmiss, htc, huniq]
  norm_num

/-- C3, the claim as stated is false: a 20-row table whose target column
is constant at `0` (on every row, hence on any training window) makes
`walk_forward_predict_proba` return the neutral `0.5`, not `0.0` — the
too-short-input path answers before the constant-target check. -/
theorem claim3_counterexample :
    (∀ r ∈ (wfConstFrame 20 0).rows, r "target" = some 0) ∧
      walk_forward_predict_proba (fun _ => ()) (fun _ _ => 0) []
        (wfConstFrame 20 0) ["f"] "target" none true 252 60 =
        ⟨1/2, false, []⟩ := by
  constructor
  · intro r hr
    have hr2 : r ∈ List.replicate 20 (wfTargetRow 0) := hr
    rw [List.eq_of_mem_replicate hr2]; rfl
  · with_unfolding_all rfl

/-- C3 amended: *provided* the table has at least `max(10, min_train+1)`
rows and the feature and target columns are present, a training-window
target column constant at `0` yields probability exactly `0.0` and one
constant at `1` yields exactly `1.0`, in both cases without fitting a
model (and without touching the model cache); shorter tables fall back to
the neutral `0.5` before this check. -/
theorem claim3_amended_constant_target {M : Type}
    (fitModel : WFrame → M) (predictProbUp : M → WFrame → ℚ)
    (cache : List (String × M)) (df : WFrame)
    (feature_cols : List String) (target_col : String)
    (ticker : Option String) (retrain : Bool) (lookback min_train : Nat)
    (hlen : max 10 (min_train + 1) ≤ df.rows.length)
    (hmiss : feature_cols.filter (fun c => !df.cols.contains c) = [])
    (htc : df.cols.contains target_col = true) :
    ((∀ r ∈ (df.iloc (df.rows.length - 1 - lookback) (df.rows.length - 1)).rows,
        r target_col = some 0 ∨ r target_col = none) →
      (∃ r ∈ (df.iloc (df.rows.length - 1 - lookback) (df.rows.length - 1)).rows,
        r target_col = some 0) →
      walk_forward_predict_proba fitModel predictProbUp cache df feature_cols
        target_col ticker retrain lookback min_train = ⟨0, false, cache⟩) ∧
    ((∀ r ∈ (df.iloc (df.rows.length - 1 - lookback) (df.rows.length - 1)).rows,
        r target_col = some 1 ∨ r target_col = none) →
      (∃ r ∈ (df.iloc (df.rows.length - 1 - lookback) (df.rows.length - 1)).rows,
        r target_col = some 1) →
      walk_forward_predict_proba fitModel predictProbUp cache df feature_cols
        target_col ticker retrain lookback min_train = ⟨1, false, cache⟩) := by
  constructor
  · intro hall hex
    rw [wf_const_target fitModel predictProbUp cache df feature_cols target_col
      ticker retrain lookback min_train 0 hlen hmiss htc hall hex]
    norm_num [pyInt]
  · intro hall hex
    rw [wf_const_target fitModel predictProbUp cache df feature_cols target_col
      ticker retrain lookback min_train 1 hlen hmiss htc hall hex]
    norm_num [pyInt]

/-- C3 witness: the hypotheses of `claim3_amended_constant_target` hold at
a 61-row constant-`0` frame with the default `lookback`/`min_train`, and
so does its conclusion. -/
theorem claim3_witness :
    max 10 (60 + 1) ≤ (wfConstFrame 61 0).rows.length ∧
      ["f"].filter (fun c => !(wfConstFrame 61 0).cols.contains c) = [] ∧
      (wfConstFrame 61 0).cols.contains "target" = true ∧
      (((∀ r ∈ ((wfConstFrame 61 0).iloc ((wfConstFrame 61 0).rows.length - 1 - 252)
            ((wfConstFrame 61 0).rows.length - 1)).rows,
          r "target" = some 0 ∨ r "target" = none) →
        (∃ r ∈ ((wfConstFrame 61 0).iloc ((wfConstFrame 61 0).rows.length - 1 - 252)
            ((wfConstFrame 61 0).rows.length - 1)).rows,
          r "target" = some 0) →
        walk_forward_predict_proba (fun _ => ()) (fun _ _ => 0) [] (wfConstFrame 61 0)
          ["f"] "target" none true 252 60 = ⟨0, false, []⟩) ∧
      ((∀ r ∈ ((wfConstFrame 61 0).iloc ((wfConstFrame 61 0).rows.length - 1 - 252)
            ((wfConstFrame 61 0).rows.length - 1)).rows,
          r "target" = some 1 ∨ r "target" = none) →
        (∃ r ∈ ((wfConstFrame 61 0).iloc ((wfConstFrame 61 0).rows.length - 1 - 252)
            ((wfConstFrame 61 0).rows.length - 1)).rows,
          r "target" = some 1) →
        walk_forward_predict_proba (fun _ => ()) (fun _ _ => 0) [] (wfConstFrame 61 0)
          ["f"] "target" none true 252 60 = ⟨1, false, []⟩)) :=
  ⟨by decide, by with_unfolding_all rfl, by with_unfolding_all rfl,
    claim3_amended_constant_target (fun _ => ()) (fun _ _ => 0) []
      (wfConstFrame 61 0) ["f"] "target" none true 252 60
      (by decide) (by with_unfolding_all rfl) (by with_unfolding_all rfl)⟩

/-! ## Model cache (C4) -/

/-- Python dict update followed by lookup of the same key. -/
lemma dictGet_dictSet {β : Type} (d : List (String × β)) (k : String) (v : β) :
    dictGet (dictSet d k v) k = some v := by
  induction d with
  | nil => simp [dictSet, dictGet]
  | cons e d ih =>
      by_cases he : e.1 = k
      · simp [dictSet, dictGet, List.any_cons, he, List.find?]
      · by_cases hd : (d.any fun e => decide (e.1 = k)) = true
        · have h1 : dictSet (e :: d) k v =
              e :: d.map (fun e2 => if e2.1 = k then (k, v) else e2) := by
            simp [dictSet, List.any_cons, he, hd]
          have h2 : dictSet d k v =
              d.map (fun e2 => if e2.1 = k then (k, v) else e2) := by
            simp [dictSet, hd]
          rw [h2] at ih
          rw [h1]
          simpa [dictGet, List.find?, he] using ih
        · have h1 : dictSet (e :: d) k v = e :: (d ++ [(k, v)]) := by
            simp [dictSet, List.any_cons, he, hd]
          have h2 : dictSet d k v = d ++ [(k, v)] := by
            simp [dictSet, hd]
          rw [h2] at ih
          rw [h1]
          simpa [dictGet, List.find?, he] using ih

/-- C4, the claim as stated is false: the in-memory model cache is keyed
by ticker alone.  Here the store models a fit performed for
`(ticker="AAPL", horizon_days=5)` and the lookup a request for
`(ticker="AAPL", horizon_days=10)`; neither call takes a horizon — the
key is `(ticker or "").upper().strip()` — so the horizon-5 model *is*
returned for the horizon-10 lookup. -/
theorem claim4_counterexample :
    get_cached_model (set_cached_model ([] : List (String × Nat)) "AAPL" 7) "AAPL" =
      some 7 := by
  with_unfolding_all rfl

/-- C4 amended: the cache key is the uppercased, trimmed ticker and
nothing else; for any non-empty key, a freshly stored model is returned
by the very next lookup for the same ticker, whatever horizons the two
surrounding predictions use. -/
theorem claim4_amended_cache_key {M : Type} (cache : List (String × M))
    (t : String) (m : M) (h : ¬ t.toUpper.trim = "") :
    get_cached_model (set_cached_model cache t m) t = some m := by
  unfold get_cached_model set_cached_model
  simp only [if_neg h]
  exact dictGet_dictSet cache t.toUpper.trim m

/-- C4 witness: the amended statement at a lower-case ticker over a
non-empty cache. -/
theorem claim4_witness :
    get_cached_model (set_cached_model [("SPY", (1 : Nat))] "aapl" 7) "aapl" =
      some 7 :=
  claim4_amended_cache_key [("SPY", 1)] "aapl" 7 (by with_unfolding_all decide)

/-! ## Provider fallback chain (C5) -/

lemma exceptIsOk_ok {ε α : Type} (a : α) :
    (Except.ok a : Except ε α).isOk = true := rfl

lemma exceptIsOk_error {ε α : Type} (e : ε) :
    (Except.error e : Except ε α).isOk = false := rfl

lemma dailyAllFailed_isOk (t : String) (last : Option String) :
    (dailyAllFailed t last).isOk = false := by
  cases last <;> rfl

lemma dailyTryAlpha_isOk (t : String) (last : Option String) (p3 : ProvRes) :
    ((dailyTryAlpha t last p3).isOk = false ↔ failsOrEmpty p3 = true) := by
  cases p3 with
  | ok s => cases s <;> simp [dailyTryAlpha, failsOrEmpty, dailyAllFailed_isOk, exceptIsOk_ok, exceptIsOk_error]
  | error e => simp [dailyTryAlpha, failsOrEmpty, dailyAllFailed_isOk]

lemma dailyTryStooq_isOk (t : String) (last : Option String) (p2 p3 : ProvRes) :
    ((dailyTryStooq t last p2 p3).isOk = false ↔
      (failsOrEmpty p2 = true ∧ failsOrEmpty p3 = true)) := by
  cases p2 with
  | ok s => cases s <;>
      simp [dailyTryStooq, failsOrEmpty, dailyTryAlpha_isOk, exceptIsOk_ok, exceptIsOk_error]
  | error e => simp [dailyTryStooq, failsOrEmpty, dailyTryAlpha_isOk]

lemma monthlyAllFailed_isOk (t : String) (last : Option String) :
    (monthlyAllFailed t last).isOk = false := by
  cases last <;> rfl

lemma monthlyTryAlpha_isOk (t : String) (last : Option String) (p3 : ProvRes) :
    ((monthlyTryAlpha t last p3).isOk = false ↔ failsOrEmpty p3 = true) := by
  cases p3 with
  | ok s => cases s <;> simp [monthlyTryAlpha, failsOrEmpty, monthlyAllFailed_isOk, exceptIsOk_ok, exceptIsOk_error]
  | error e => simp [monthlyTryAlpha, failsOrEmpty, monthlyAllFailed_isOk]

lemma monthlyTryStooq_isOk (t : String) (last : Option String) (p2 p3 : ProvRes) :
    ((monthlyTryStooq t last p2 p3).isOk = false ↔
      (failsOrEmpty p2 = true ∧ failsOrEmpty p3 = true)) := by
  cases p2 with
  | ok s => cases s <;>
      simp [monthlyTryStooq, failsOrEmpty, monthlyTryAlpha_isOk, exceptIsOk_ok, exceptIsOk_error]
  | error e => simp [monthlyTryStooq, failsOrEmpty, monthlyTryAlpha_isOk]

/-- C5, the claim as stated is false: with all three daily providers
failing for reasons `E1`, `E2`, `E3`, the raised message carries *only*
the last reason — neither the yfinance reason nor the stooq reason occurs
in it. -/
theorem claim5_counterexample :
    get_daily_prices "AAPL" (.error "E1") (.error "E2") (.error "E3") =
      .error "All data sources failed for AAPL. Last error: alpha vantage failed: E3" ∧
    ¬ List.IsInfix "E1".toList
      "All data sources failed for AAPL. Last error: alpha vantage failed: E3".toList ∧
    ¬ List.IsInfix "stooq failed: E2".toList
      "All data sources failed for AAPL. Last error: alpha vantage failed: E3".toList := by
  refine ⟨by with_unfolding_all rfl, by decide, by decide⟩

/-- C5 amended: for a non-blank ticker, `get_daily_prices` and
`get_monthly_prices` raise exactly when every provider leg failed (raised
or came back empty); when all three legs raise, the raised message ends
with the *last* failure reason only (prefixed with the provider label)
rather than aggregating every reason. -/
theorem claim5_amended_error_aggregation (t : String) (p1 p2 p3 : ProvRes) :
    ((¬ t.toUpper.trim = "") →
      ((get_daily_prices t p1 p2 p3).isOk = false ↔
        (failsOrEmpty p1 = true ∧ failsOrEmpty p2 = true ∧ failsOrEmpty p3 = true))) ∧
    (∀ e1 e2 e3, p1 = .error e1 → p2 = .error e2 → p3 = .error e3 →
      (¬ t.toUpper.trim = "") →
      get_daily_prices t p1 p2 p3 =
        .error ("All data sources failed for " ++ t.toUpper.trim ++
          ". Last error: " ++ ("alpha vantage failed: " ++ e3))) ∧
    ((¬ t.toUpper.trim = "") →
      ((get_monthly_prices t p1 p2 p3).isOk = false ↔
        (failsOrEmpty p1 = true ∧ failsOrEmpty p2 = true ∧ failsOrEmpty p3 = true))) ∧
    (∀ e1 e2 e3, p1 = .error e1 → p2 = .error e2 → p3 = .error e3 →
      (¬ t.toUpper.trim = "") →
      get_monthly_prices t p1 p2 p3 =
        .error ("All monthly data sources failed for " ++ t.toUpper.trim ++
          ". Last error: " ++ ("alpha->monthly failed: " ++ e3))) := by
  refine ⟨?_, ?_, ?_, ?_⟩
  · intro ht
    cases p1 with
    | ok s => cases s <;>
        simp [get_daily_prices, if_neg ht, failsOrEmpty, dailyTryStooq_isOk, exceptIsOk_ok, exceptIsOk_error]
    | error e => simp [get_daily_prices, if_neg ht, failsOrEmpty, dailyTryStooq_isOk]
  · intro e1 e2 e3 h1 h2 h3 ht
    subst h1; subst h2; subst h3
    simp [get_daily_prices, if_neg ht, dailyTryStooq, dailyTryAlpha, dailyAllFailed]
  · intro ht
    cases p1 with
    | ok s => cases s <;>
        simp [get_monthly_prices, if_neg ht, failsOrEmpty, monthlyTryStooq_isOk, exceptIsOk_ok, exceptIsOk_error]
    | error e => simp [get_monthly_prices, if_neg ht, failsOrEmpty, monthlyTryStooq_isOk]
  · intro e1 e2 e3 h1 h2 h3 ht
    subst h1; subst h2; subst h3
    simp [get_monthly_prices, if_neg ht, monthlyTryStooq, monthlyTryAlpha, monthlyAllFailed]

/-! ## Data loader (C1, C6, C9) -/

lemma except_error_of_isOk_false {ε α : Type} {r : Except ε α}
    (h : r.isOk = false) : ∃ e, r = .error e := by
  cases r with
  | error e => exact ⟨e, rfl⟩
  | ok a => exact absurd h (by simp [exceptIsOk_ok])

/-- The live daily fetch can never succeed: whatever the providers do,
the tuple unpacking binds strings and the `raw.empty` access raises. -/
lemma live_fetch_daily_fails (t : String) (p1 p2 p3 : ProvRes) :
    (live_fetch_daily t p1 p2 p3).isOk = false := by
  unfold live_fetch_daily
  cases h : get_daily_prices t p1 p2 p3 with
  | error e => simp only [h]; rfl
  | ok s => simp only [h, unpack2, frameOfSeries, pyStrEmptyAttr]; rfl

/-- Same for the monthly fetch. -/
lemma live_fetch_monthly_fails (t : String) (p1 p2 p3 : ProvRes) :
    (live_fetch_monthly t p1 p2 p3).isOk = false := by
  unfold live_fetch_monthly
  cases h : get_monthly_prices t p1 p2 p3 with
  | error e => simp only [h]; rfl
  | ok s => simp only [h, unpack2, frameOfSeries, pyStrEmptyAttr]; rfl

/-- `loadLiveStep` always reports a failed fetch and no cache write. -/
lemma loadLiveStep_error (env : LoaderEnv) (tk : String) (freq : Freq) :
    ∃ e, loadLiveStep env tk freq = (.error e, ⟨true, false⟩) := by
  cases freq with
  | daily =>
      obtain ⟨e, he⟩ := except_error_of_isOk_false
        (live_fetch_daily_fails tk env.dailyP1 env.dailyP2 env.dailyP3)
      exact ⟨e, by simp [loadLiveStep, he, exceptIsOk_error]⟩
  | monthly =>
      obtain ⟨e, he⟩ := except_error_of_isOk_false
        (live_fetch_monthly_fails tk env.monthlyP1 env.monthlyP2 env.monthlyP3)
      exact ⟨e, by simp [loadLiveStep, he, exceptIsOk_error]⟩

/-- A successfully parsed cache is non-empty. -/
lemma load_cached_nonempty (env : LoaderEnv) (c : CacheData)
    (hc : load_cached_prices env = some c) : c.rows.isEmpty = false := by
  unfold load_cached_prices at hc
  cases henv : env.cache with
  | none => simp only [henv] at hc; cases hc
  | some c0 =>
      simp only [henv] at hc
      by_cases h0 : c0.rows.isEmpty = true
      · simp only [if_pos h0] at hc; cases hc
      · simp only [if_neg h0] at hc
        cases hc
        simpa using h0

/-- What the common tail of `load_stock_data` does: it passes the effects
through, and answers the trimmed series with the given provenance tag iff
at least 30 rows survive the trim. -/
lemma loadFinalize_spec (rows : Series) (tag : Tag) (lb : Option Int)
    (eff : LoadEffects) (hne : rows.isEmpty = false) :
    (loadFinalize rows tag lb eff).2 = eff ∧
      (30 ≤ (trimRows rows lb).length →
        loadFinalize rows tag lb eff = (some (trimRows rows lb, tag), eff)) ∧
      ((trimRows rows lb).length < 30 →
        loadFinalize rows tag lb eff = (none, eff)) := by
  unfold loadFinalize
  rw [hne]
  by_cases h30 : (trimRows rows lb).length < 30
  · simp only [if_pos h30]
    exact ⟨rfl, fun h => by omega, fun _ => rfl⟩
  · simp only [if_neg h30]
    exact ⟨rfl, fun _ => rfl, fun h => by omega⟩

/-- `load_stock_data` in mode `auto` with a fresh cache: the cached rows
go straight to the common tail, with no live call and no write. -/
lemma load_auto_fresh (env : LoaderEnv) (tk : String) (lb : Option Int)
    (freq : Freq) (c : CacheData)
    (hc : load_cached_prices env = some c)
    (hf : is_cache_fresh c env.now (ttlHours freq) = true) :
    load_stock_data env tk lb freq .auto =
      loadFinalize c.rows Tag.cache lb ⟨false, false⟩ := by
  unfold load_stock_data
  simp [hc, hf]

/-- `load_stock_data` in mode `auto`, stale cache, no monthly-CSV
shortcut: the live fetch is attempted (and fails), and the stale cached
rows go to the common tail. -/
lemma load_auto_stale (env : LoaderEnv) (tk : String) (lb : Option Int)
    (freq : Freq) (c : CacheData)
    (hc : load_cached_prices env = some c)
    (hf : is_cache_fresh c env.now (ttlHours freq) = false)
    (hcsv : freq = .daily ∨ load_from_monthly_prices_csv env = none) :
    load_stock_data env tk lb freq .auto =
      loadFinalize c.rows Tag.cacheStale lb ⟨true, false⟩ := by
  have hne := load_cached_nonempty env c hc
  obtain ⟨e, he⟩ := loadLiveStep_error env tk freq
  unfold load_stock_data
  rcases hcsv with hfq | hcsv
  · subst hfq
    simp [hc, hf, he, hne]
  · simp [hc, hf, he, hcsv, hne]

/-- `load_stock_data` in mode `auto` with no readable cache and no
monthly-CSV shortcut: the live fetch is attempted (and fails) and the
call answers `None`. -/
lemma load_auto_nocache (env : LoaderEnv) (tk : String) (lb : Option Int)
    (freq : Freq)
    (hc : load_cached_prices env = none)
    (hcsv : freq = .daily ∨ load_from_monthly_prices_csv env = none) :
    load_stock_data env tk lb freq .auto = (none, ⟨true, false⟩) := by
  obtain ⟨e, he⟩ := loadLiveStep_error env tk freq
  unfold load_stock_data
  rcases hcsv with hfq | hcsv
  · subst hfq
    simp [hc, he]
  · simp [hc, he, hcsv]

/-- `load_stock_data` in live-first mode with a readable cache and no
monthly-CSV shortcut: the live fetch is attempted first (and fails) and
the call falls back to the cached rows, fresh or stale. -/
lemma load_livefirst_cache (env : LoaderEnv) (tk : String) (lb : Option Int)
    (freq : Freq) (c : CacheData)
    (hc : load_cached_prices env = some c)
    (hcsv : freq = .daily ∨ load_from_monthly_prices_csv env = none) :
    load_stock_data env tk lb freq .liveFirst =
      loadFinalize c.rows
        (if is_cache_fresh c env.now (ttlHours freq) then Tag.cache else Tag.cacheStale)
        lb ⟨true, false⟩ := by
  have hne := load_cached_nonempty env c hc
  obtain ⟨e, he⟩ := loadLiveStep_error env tk freq
  unfold load_stock_data
  rcases hcsv with hfq | hcsv
  · subst hfq
    cases hf : is_cache_fresh c env.now (ttlHours .daily) <;> simp [hc, hf, he, hne]
  · cases hf : is_cache_fresh c env.now (ttlHours freq) <;> simp [hc, hf, he, hcsv, hne]

/-- `load_stock_data` in live-first mode with no readable cache and no
monthly-CSV shortcut: the live fetch fails and the call answers
`None`. -/
lemma load_livefirst_nocache (env : LoaderEnv) (tk : String) (lb : Option Int)
    (freq : Freq)
    (hc : load_cached_prices env = none)
    (hcsv : freq = .daily ∨ load_from_monthly_prices_csv env = none) :
    load_stock_data env tk lb freq .liveFirst = (none, ⟨true, false⟩) := by
  obtain ⟨e, he⟩ := loadLiveStep_error env tk freq
  unfold load_stock_data
  rcases hcsv with hfq | hcsv
  · subst hfq
    simp [hc, he]
  · simp [hc, he, hcsv]

/-- C1, the claim as stated is false: a ticker with a perfectly fresh
cache entry of 5 rows gets `None` from an `auto` load — the cached series
is not returned and `None` does not mean "no cache exists", because the
minimum-row check `len(out) < 30` rejects the result after the routing. -/
theorem claim1_counterexample :
    (load_stock_data (envCache 5 0) "AAPL" (some (365 * 6)) .daily .auto).1 = none ∧
      (envCache 5 0).cache.isSome = true ∧
      is_cache_fresh ⟨cacheRows 5, some 0⟩ 0 (ttlHours .daily) = true := by
  refine ⟨by with_unfolding_all rfl, by with_unfolding_all rfl, by with_unfolding_all rfl⟩

/-- C1 amended: in mode `auto`, a fresh cache is returned immediately with
no live call and no cache write — *provided* at least 30 rows survive the
lookback trim, else `None`; with a stale or missing cache (and, for
monthly data, no `monthly_prices.csv` shortcut) the live fetch is
attempted, and since it always fails the call degrades to the stale
cached series when one with 30 surviving rows exists, and to `None`
otherwise — so `None` can also mean "a cache exists but is too short". -/
theorem claim1_amended_auto_routing (env : LoaderEnv) (tk : String)
    (lb : Option Int) (freq : Freq) :
    (∀ c, load_cached_prices env = some c →
      is_cache_fresh c env.now (ttlHours freq) = true →
      ((load_stock_data env tk lb freq .auto).2 = ⟨false, false⟩ ∧
        (30 ≤ (trimRows c.rows lb).length →
          (load_stock_data env tk lb freq .auto).1 =
            some (trimRows c.rows lb, Tag.cache)) ∧
        ((trimRows c.rows lb).length < 30 →
          (load_stock_data env tk lb freq .auto).1 = none))) ∧
    (∀ c, load_cached_prices env = some c →
      is_cache_fresh c env.now (ttlHours freq) = false →
      (freq = .daily ∨ load_from_monthly_prices_csv env = none) →
      ((load_stock_data env tk lb freq .auto).2 = ⟨true, false⟩ ∧
        (30 ≤ (trimRows c.rows lb).length →
          (load_stock_data env tk lb freq .auto).1 =
            some (trimRows c.rows lb, Tag.cacheStale)) ∧
        ((trimRows c.rows lb).length < 30 →
          (load_stock_data env tk lb freq .auto).1 = none))) ∧
    (load_cached_prices env = none →
      (freq = .daily ∨ load_from_monthly_prices_csv env = none) →
      (load_stock_data env tk lb freq .auto = (none, ⟨true, false⟩))) := by
  refine ⟨?_, ?_, ?_⟩
  · intro c hc hf
    rw [load_auto_fresh env tk lb freq c hc hf]
    obtain ⟨heff, h30, hlt⟩ :=
      loadFinalize_spec c.rows Tag.cache lb ⟨false, false⟩ (load_cached_nonempty env c hc)
    exact ⟨heff, fun h => by rw [h30 h], fun h => by rw [hlt h]⟩
  · intro c hc hf hcsv
    rw [load_auto_stale env tk lb freq c hc hf hcsv]
    obtain ⟨heff, h30, hlt⟩ :=
      loadFinalize_spec c.rows Tag.cacheStale lb ⟨true, false⟩ (load_cached_nonempty env c hc)
    exact ⟨heff, fun h => by rw [h30 h], fun h => by rw [hlt h]⟩
  · intro hc hcsv
    exact load_auto_nocache env tk lb freq hc hcsv

/-- C6, the claim as stated is false: in live-first mode with every
provider failing, a ticker with a 40-row *stale* cache entry does not get
a failure — `load_stock_data` returns the stale cached series (tagged
`cache_stale`) instead of `None`. -/
theorem claim6_counterexample :
    (load_stock_data (envCache 40 1000) "AAPL" (some (365 * 6)) .daily .liveFirst).1 =
      some (cacheRows 40, Tag.cacheStale) ∧
      is_cache_fresh ⟨cacheRows 40, some 0⟩ 1000 (ttlHours .daily) = false ∧
      (envCache 40 1000).dailyP1.isOk = false ∧
      (envCache 40 1000).dailyP2.isOk = false ∧
      (envCache 40 1000).dailyP3.isOk = false := by
  refine ⟨by with_unfolding_all rfl, by with_unfolding_all rfl, rfl, rfl, rfl⟩

/-- C6 amended: the live-first mode (any `source` other than `cache` and
`auto`, e.g. `"live"` or `"yfinance"`) does *not* ignore the cache — it
only skips the fresh-cache short-circuit.  It always attempts the live
fetch (for daily data; a monthly CSV shortcut may preempt it), and on
live failure it falls back to the cached series, fresh or stale, whenever
one with 30 post-trim rows exists; `None` comes only from a missing,
unreadable or too-short cache. -/
theorem claim6_amended_live_mode (env : LoaderEnv) (tk : String)
    (lb : Option Int) (freq : Freq) :
    (∀ c, load_cached_prices env = some c →
      (freq = .daily ∨ load_from_monthly_prices_csv env = none) →
      ((load_stock_data env tk lb freq .liveFirst).2 = ⟨true, false⟩ ∧
        (30 ≤ (trimRows c.rows lb).length →
          (load_stock_data env tk lb freq .liveFirst).1 =
            some (trimRows c.rows lb,
              if is_cache_fresh c env.now (ttlHours freq) then Tag.cache
              else Tag.cacheStale)) ∧
        ((trimRows c.rows lb).length < 30 →
          (load_stock_data env tk lb freq .liveFirst).1 = none))) ∧
    (load_cached_prices env = none →
      (freq = .daily ∨ load_from_monthly_prices_csv env = none) →
      (load_stock_data env tk lb freq .liveFirst = (none, ⟨true, false⟩))) := by
  constructor
  · intro c hc hcsv
    rw [load_livefirst_cache env tk lb freq c hc hcsv]
    obtain ⟨heff, h30, hlt⟩ :=
      loadFinalize_spec c.rows
        (if is_cache_fresh c env.now (ttlHours freq) then Tag.cache else Tag.cacheStale)
        lb ⟨true, false⟩ (load_cached_nonempty env c hc)
    exact ⟨heff, fun h => by rw [h30 h], fun h => by rw [hlt h]⟩
  · intro hc hcsv
    exact load_livefirst_nocache env tk lb freq hc hcsv

/-- `load_stock_data` in mode `cache`: cache only, no live call. -/
lemma load_cache_mode (env : LoaderEnv) (tk : String) (lb : Option Int)
    (freq : Freq) :
    load_stock_data env tk lb freq .cache =
      match load_cached_prices env with
      | none => (none, ⟨false, false⟩)
      | some c =>
          loadFinalize c.rows
            (if is_cache_fresh c env.now (ttlHours freq) then Tag.cache
             else Tag.cacheStale) lb ⟨false, false⟩ := by
  cases hc : load_cached_prices env with
  | none => unfold load_stock_data; simp [hc]
  | some c =>
      cases hf : is_cache_fresh c env.now (ttlHours freq) <;>
        · unfold load_stock_data
          simp [hc, hf]

/-- `load_stock_data`, monthly frequency, mode `auto`, no fresh cache, a
usable `monthly_prices.csv`: the CSV preempts the live fetch. -/
lemma load_auto_monthly_csv (env : LoaderEnv) (tk : String) (lb : Option Int)
    (s : Series)
    (hcsv : load_from_monthly_prices_csv env = some s)
    (hnf : ∀ c, load_cached_prices env = some c →
      is_cache_fresh c env.now (ttlHours .monthly) = false) :
    load_stock_data env tk lb .monthly .auto =
      loadFinalize s Tag.monthlyCsv lb ⟨false, false⟩ := by
  cases hc : load_cached_prices env with
  | none => unfold load_stock_data; simp [hc, hcsv]
  | some c =>
      have hf := hnf c hc
      unfold load_stock_data
      simp [hc, hf, hcsv]

/-- `load_stock_data`, monthly frequency, live-first mode, a usable
`monthly_prices.csv`: the CSV preempts the live fetch here too. -/
lemma load_livefirst_monthly_csv (env : LoaderEnv) (tk : String)
    (lb : Option Int) (s : Series)
    (hcsv : load_from_monthly_prices_csv env = some s) :
    load_stock_data env tk lb .monthly .liveFirst =
      loadFinalize s Tag.monthlyCsv lb ⟨false, false⟩ := by
  cases hc : load_cached_prices env with
  | none => unfold load_stock_data; simp [hc, hcsv]
  | some c =>
      cases hf : is_cache_fresh c env.now (ttlHours .monthly) <;>
        · unfold load_stock_data
          simp [hc, hf, hcsv]

/-- Pushing a no-write effect and a non-live tag through the common
tail. -/
lemma loadFinalize_no_live (rows : Series) (tag : Tag) (lb : Option Int)
    (eff : LoadEffects) (hW : eff.wroteCache = false)
    (htag : tag = Tag.cache ∨ tag = Tag.cacheStale ∨ tag = Tag.monthlyCsv) :
    (loadFinalize rows tag lb eff).2.wroteCache = false ∧
      (∀ r2 tg, (loadFinalize rows tag lb eff).1 = some (r2, tg) →
        (tg = Tag.cache ∨ tg = Tag.cacheStale ∨ tg = Tag.monthlyCsv)) := by
  unfold loadFinalize
  split
  · exact ⟨hW, fun r2 tg h => Option.noConfusion h⟩
  · dsimp only
    split
    · exact ⟨hW, fun r2 tg h => Option.noConfusion h⟩
    · refine ⟨hW, ?_⟩
      intro r2 tg h
      have h2 : tag = tg := congrArg Prod.snd (Option.some.inj h)
      exact h2 ▸ htag

/-- The `(None, effects)` answers trivially satisfy the two C9
conclusions. -/
lemma none_no_live (eff : LoadEffects) (hW : eff.wroteCache = false) :
    ((none, eff) : Option (Series × Tag) × LoadEffects).2.wroteCache = false ∧
      (∀ rows tag, ((none, eff) : Option (Series × Tag) × LoadEffects).1 =
          some (rows, tag) →
        (tag = Tag.cache ∨ tag = Tag.cacheStale ∨ tag = Tag.monthlyCsv)) :=
  ⟨hW, fun _ _ h => Option.noConfusion h⟩

/-- Whatever the mode, frequency, cache and provider state:
`load_stock_data` never records a cache write, and a successful result is
never live data — always the cache (fresh or stale) or the monthly
CSV. -/
lemma load_no_live (env : LoaderEnv) (tk : String) (lb : Option Int)
    (freq : Freq) (mode : Mode) :
    (load_stock_data env tk lb freq mode).2.wroteCache = false ∧
      (∀ rows tag, (load_stock_data env tk lb freq mode).1 = some (rows, tag) →
        (tag = Tag.cache ∨ tag = Tag.cacheStale ∨ tag = Tag.monthlyCsv)) := by
  rcases mode with _ | _ | _
  · -- mode cache
    rw [load_cache_mode env tk lb freq]
    cases hc : load_cached_prices env with
    | none => exact none_no_live ⟨false, false⟩ rfl
    | some c =>
        refine loadFinalize_no_live c.rows _ lb ⟨false, false⟩ rfl ?_
        cases is_cache_fresh c env.now (ttlHours freq) <;> simp
  · -- mode auto
    cases hc : load_cached_prices env with
    | some c =>
        cases hf : is_cache_fresh c env.now (ttlHours freq) with
        | true =>
            rw [load_auto_fresh env tk lb freq c hc hf]
            exact loadFinalize_no_live c.rows _ lb ⟨false, false⟩ rfl (by simp)
        | false =>
            cases freq with
            | daily =>
                rw [load_auto_stale env tk lb .daily c hc hf (Or.inl rfl)]
                exact loadFinalize_no_live c.rows _ lb ⟨true, false⟩ rfl (by simp)
            | monthly =>
                cases hcsv : load_from_monthly_prices_csv env with
                | none =>
                    rw [load_auto_stale env tk lb .monthly c hc hf (Or.inr hcsv)]
                    exact loadFinalize_no_live c.rows _ lb ⟨true, false⟩ rfl (by simp)
                | some s =>
                    rw [load_auto_monthly_csv env tk lb s hcsv
                      (fun c2 hc2 => by rw [hc] at hc2; cases hc2; exact hf)]
                    exact loadFinalize_no_live s _ lb ⟨false, false⟩ rfl (by simp)
    | none =>
        cases freq with
        | daily =>
            rw [load_auto_nocache env tk lb .daily hc (Or.inl rfl)]
            exact none_no_live ⟨true, false⟩ rfl
        | monthly =>
            cases hcsv : load_from_monthly_prices_csv env with
            | none =>
                rw [load_auto_nocache env tk lb .monthly hc (Or.inr hcsv)]
                exact none_no_live ⟨true, false⟩ rfl
            | some s =>
                rw [load_auto_monthly_csv env tk lb s hcsv
                  (fun c2 hc2 => by rw [hc] at hc2; cases hc2)]
                exact loadFinalize_no_live s _ lb ⟨false, false⟩ rfl (by simp)
  · -- live-first mode
    cases hc : load_cached_prices env with
    | some c =>
        cases freq with
        | daily =>
            rw [load_livefirst_cache env tk lb .daily c hc (Or.inl rfl)]
            refine loadFinalize_no_live c.rows _ lb ⟨true, false⟩ rfl ?_
            cases is_cache_fresh c env.now (ttlHours .daily) <;> simp
        | monthly =>
            cases hcsv : load_from_monthly_prices_csv env with
            | none =>
                rw [load_livefirst_cache env tk lb .monthly c hc (Or.inr hcsv)]
                refine loadFinalize_no_live c.rows _ lb ⟨true, false⟩ rfl ?_
                cases is_cache_fresh c env.now (ttlHours .monthly) <;> simp
            | some s =>
                rw [load_livefirst_monthly_csv env tk lb s hcsv]
                exact loadFinalize_no_live s _ lb ⟨false, false⟩ rfl (by simp)
    | none =>
        cases freq with
        | daily =>
            rw [load_livefirst_nocache env tk lb .daily hc (Or.inl rfl)]
            exact none_no_live ⟨true, false⟩ rfl
        | monthly =>
            cases hcsv : load_from_monthly_prices_csv env with
            | none =>
                rw [load_livefirst_nocache env tk lb .monthly hc (Or.inr hcsv)]
                exact none_no_live ⟨true, false⟩ rfl
            | some s =>
                rw [load_livefirst_monthly_csv env tk lb s hcsv]
                exact loadFinalize_no_live s _ lb ⟨false, false⟩ rfl (by simp)

/-- C9 (implicit): the live-fetch branch of `load_stock_data` always
fails.  The tuple unpacking in `_live_fetch_daily` / `_live_fetch_monthly`
binds the two column-name strings of the frame returned by
`get_daily_prices` / `get_monthly_prices`, the subsequent `raw.empty`
attribute access raises, and consequently `load_stock_data` never writes
a new cache entry and can only answer from the on-disk cache (fresh or
stale) or the monthly CSV. -/
theorem claim9_live_fetch_always_fails (t : String) (p1 p2 p3 : ProvRes)
    (env : LoaderEnv) (tk : String) (lb : Option Int) (freq : Freq) (mode : Mode) :
    (∀ s : Series, unpack2 (frameOfSeries s) = .ok ("date", "price")) ∧
      (live_fetch_daily t p1 p2 p3).isOk = false ∧
      (live_fetch_monthly t p1 p2 p3).isOk = false ∧
      (load_stock_data env tk lb freq mode).2.wroteCache = false ∧
      (∀ rows tag, (load_stock_data env tk lb freq mode).1 = some (rows, tag) →
        (tag = Tag.cache ∨ tag = Tag.cacheStale ∨ tag = Tag.monthlyCsv)) :=
  ⟨fun _ => rfl, live_fetch_daily_fails t p1 p2 p3,
    live_fetch_monthly_fails t p1 p2 p3,
    (load_no_live env tk lb freq mode).1, (load_no_live env tk lb freq mode).2⟩

/-! ## Run orchestrator (C7, C8, C10) -/

lemma toOption_ok {ε α : Type} (a : α) :
    (Except.ok a : Except ε α).toOption = some a := rfl

lemma toOption_error {ε α : Type} (e : ε) :
    (Except.error e : Except ε α).toOption = none := rfl

lemma except_ok_of_isOk_true {ε α : Type} {r : Except ε α}
    (h : r.isOk = true) : ∃ a, r = .ok a := by
  cases r with
  | error e => exact absurd h (by simp [exceptIsOk_error])
  | ok a => exact ⟨a, rfl⟩

/-- Two successive progress pushes collapse to the last one. -/
lemma update_update {α : Type} (db : RunDB α) (a b : Nat) :
    update_run_progress (update_run_progress db a) b = update_run_progress db b := by
  rcases db with ⟨run, preds⟩
  cases run <;> rfl

/-- Closed form of the `run_phase2` ticker loop: the successes in order,
the failures dict, a completion count bumped once per ticker, and the
last progress push. -/
lemma runPhase2_foldl {α : Type} (outcome : String → Except String α) :
    ∀ (ts : List String) (res : List α) (err : List (String × String))
      (c : Nat) (db : RunDB α),
      ts.foldl (runPhase2Step outcome) (res, err, c, db) =
        (res ++ ts.filterMap (fun t => (outcome t).toOption),
          ts.foldl (fun e t =>
            match outcome t with
            | .ok _ => e
            | .error m => dictSet e t m) err,
          c + ts.length,
          if ts.isEmpty then db else update_run_progress db (c + ts.length)) := by
  intro ts
  induction ts with
  | nil => intro res err c db; simp
  | cons t ts ih =>
      intro res err c db
      rw [List.foldl_cons, List.foldl_cons]
      cases ho : outcome t with
      | ok p =>
          have hstep : runPhase2Step outcome (res, err, c, db) t =
              (res ++ [p], err, c + 1, update_run_progress db (c + 1)) := by
            simp [runPhase2Step, ho]
          rw [hstep, ih]
          refine Prod.ext_iff.mpr ⟨?_, Prod.ext_iff.mpr ⟨?_, Prod.ext_iff.mpr ⟨?_, ?_⟩⟩⟩
          · simp [List.filterMap_cons, ho, Except.toOption]
          · simp only [ho]
          · simp only [List.length_cons]
            omega
          · simp only [List.isEmpty_cons, List.length_cons]
            by_cases hemp : ts.isEmpty = true
            · have h0 : ts = [] := List.isEmpty_iff.mp hemp
              subst h0
              simp
            · rw [if_neg hemp, update_update]
              norm_num
              congr 1
              omega
      | error m =>
          have hstep : runPhase2Step outcome (res, err, c, db) t =
              (res, dictSet err t m, c + 1, update_run_progress db (c + 1)) := by
            simp [runPhase2Step, ho]
          rw [hstep, ih]
          refine Prod.ext_iff.mpr ⟨?_, Prod.ext_iff.mpr ⟨?_, Prod.ext_iff.mpr ⟨?_, ?_⟩⟩⟩
          · simp [List.filterMap_cons, ho, Except.toOption]
          · simp only [ho]
          · simp only [List.length_cons]
            omega
          · simp only [List.isEmpty_cons, List.length_cons]
            by_cases hemp : ts.isEmpty = true
            · have h0 : ts = [] := List.isEmpty_iff.mp hemp
              subst h0
              simp
            · rw [if_neg hemp, update_update]
              norm_num
              congr 1
              omega

/-- Closed form of `run_phase2` itself. -/
lemma run_phase2_spec {α : Type} (db : RunDB α)
    (outcome : String → Except String α) (tickers : List String) :
    run_phase2 db outcome tickers =
      (⟨"started", tickers.length,
          (tickers.filterMap (fun t => (outcome t).toOption)).length,
          tickers.foldl (fun e t =>
            match outcome t with
            | .ok _ => e
            | .error m => dictSet e t m) []⟩,
        ⟨some ⟨"finished", tickers.length, tickers.length⟩,
          db.preds ++ tickers.filterMap (fun t => (outcome t).toOption)⟩) := by
  unfold run_phase2
  simp only [runPhase2_foldl]
  by_cases hemp : tickers.isEmpty
  · have : tickers = [] := List.isEmpty_iff.mp hemp
    subst this
    simp [create_run, finish_run, insert_predictions]
  · rw [if_neg hemp]
    by_cases hres : (([] : List α) ++
        tickers.filterMap (fun t => (outcome t).toOption)).isEmpty
    · simp only [List.nil_append] at hres ⊢
      rw [if_pos hres]
      have hnilr : tickers.filterMap (fun t => (outcome t).toOption) = [] :=
        List.isEmpty_iff.mp hres
      simp [create_run, update_run_progress, finish_run, hnilr]
    · simp only [List.nil_append] at hres ⊢
      rw [if_neg hres]
      simp [create_run, update_run_progress, finish_run, insert_predictions]

/-- Folding the failures of a run where every ticker succeeds leaves the
errors dict unchanged. -/
lemma errors_fold_all_ok {α : Type} (outcome : String → Except String α) :
    ∀ (ts : List String) (err : List (String × String)),
      (∀ t ∈ ts, (outcome t).isOk = true) →
      ts.foldl (fun e t =>
        match outcome t with
        | .ok _ => e
        | .error m => dictSet e t m) err = err := by
  intro ts
  induction ts with
  | nil => intro err _; rfl
  | cons t ts ih =>
      intro err hok
      obtain ⟨p, hp⟩ := except_ok_of_isOk_true (hok t (by simp))
      rw [List.foldl_cons]
      have : (match outcome t with
          | .ok _ => err
          | .error m => dictSet err t m) = err := by rw [hp]
      rw [this]
      exact ih err (fun t2 h2 => hok t2 (List.mem_cons_of_mem t h2))

/-- With exactly one failing ticker the errors dict ends as exactly that
one binding. -/
lemma errors_fold_single {α : Type} (outcome : String → Except String α)
    (t₀ r : String) :
    ∀ (ts : List String), ts.count t₀ = 1 → outcome t₀ = .error r →
      (∀ t ∈ ts, t ≠ t₀ → (outcome t).isOk = true) →
      ts.foldl (fun e t =>
        match outcome t with
        | .ok _ => e
        | .error m => dictSet e t m) [] = [(t₀, r)] := by
  intro ts
  induction ts with
  | nil => intro hcount; simp at hcount
  | cons t ts ih =>
      intro hcount hfail hok
      by_cases ht : t = t₀
      · subst ht
        have hcount0 : ts.count t = 0 := by
          rw [List.count_cons_self] at hcount
          omega
        have hnot : t ∉ ts := by
          intro hmem
          have := List.count_pos_iff.mpr hmem
          omega
        have hstep : dictSet ([] : List (String × String)) t r = [(t, r)] := by
          simp [dictSet]
        simp only [List.foldl_cons, hfail, hstep]
        exact errors_fold_all_ok outcome ts [(t, r)]
          (fun t2 h2 => hok t2 (List.mem_cons_of_mem t h2)
            (fun he => hnot (he ▸ h2)))
      · obtain ⟨p, hp⟩ := except_ok_of_isOk_true (hok t (by simp) ht)
        simp only [List.foldl_cons, hp]
        refine ih ?_ hfail (fun t2 h2 => hok t2 (List.mem_cons_of_mem t h2))
        rwa [List.count_cons_of_ne (fun h => ht h.symm)] at hcount

/-- All-success runs keep every prediction. -/
lemma filterMap_all_ok_length {α : Type} (outcome : String → Except String α) :
    ∀ (ts : List String), (∀ t ∈ ts, (outcome t).isOk = true) →
      (ts.filterMap (fun t => (outcome t).toOption)).length = ts.length := by
  intro ts
  induction ts with
  | nil => intro _; rfl
  | cons t ts ih =>
      intro hok
      obtain ⟨p, hp⟩ := except_ok_of_isOk_true (hok t (by simp))
      rw [List.filterMap_cons, hp]
      simp only [toOption_ok, List.length_cons]
      rw [ih (fun t2 h2 => hok t2 (List.mem_cons_of_mem t h2))]

/-- A single failure loses exactly one prediction. -/
lemma filterMap_single_fail_length {α : Type} (outcome : String → Except String α)
    (t₀ r : String) :
    ∀ (ts : List String), ts.count t₀ = 1 → outcome t₀ = .error r →
      (∀ t ∈ ts, t ≠ t₀ → (outcome t).isOk = true) →
      (ts.filterMap (fun t => (outcome t).toOption)).length = ts.length - 1 := by
  intro ts
  induction ts with
  | nil => intro hcount; simp at hcount
  | cons t ts ih =>
      intro hcount hfail hok
      by_cases ht : t = t₀
      · subst ht
        have hcount0 : ts.count t = 0 := by
          rw [List.count_cons_self] at hcount
          omega
        have hnot : t ∉ ts := by
          intro hmem
          have := List.count_pos_iff.mpr hmem
          omega
        simp only [List.filterMap_cons, hfail, toOption_error]
        rw [filterMap_all_ok_length outcome ts
          (fun t2 h2 => hok t2 (List.mem_cons_of_mem t h2)
            (fun he => hnot (he ▸ h2)))]
        simp
      · have hne : t₀ ≠ t := fun h => ht h.symm
        have hmem : t₀ ∈ ts := by
          rw [List.count_cons_of_ne hne] at hcount
          exact List.count_pos_iff.mp (by omega)
        have hlen : 1 ≤ ts.length := List.length_pos.mpr (List.ne_nil_of_mem hmem)
        obtain ⟨p, hp⟩ := except_ok_of_isOk_true (hok t (by simp) ht)
        simp only [List.filterMap_cons, hp, toOption_ok, List.length_cons]
        rw [ih (by rwa [List.count_cons_of_ne hne] at hcount) hfail
          (fun t2 h2 => hok t2 (List.mem_cons_of_mem t h2))]
        omega

/-- C7: when exactly one of the run's tickers raises and every other
succeeds, `run_phase2` ends with the errors map holding exactly that one
ticker and its reason, `stored` = n-1, the n-1 successful predictions
persisted in one batch, the run-state row at `completed = total = n` with
status `finished` (no run-level failed state exists), and the response
reporting `started` — the one failure never aborts its siblings. -/
theorem claim7_error_isolation {α : Type} (db : RunDB α)
    (outcome : String → Except String α) (tickers : List String) (t₀ r : String)
    (hcount : tickers.count t₀ = 1)
    (hfail : outcome t₀ = .error r)
    (hok : ∀ t ∈ tickers, t ≠ t₀ → (outcome t).isOk = true) :
    (run_phase2 db outcome tickers).1.errors = [(t₀, r)] ∧
      (run_phase2 db outcome tickers).1.stored = tickers.length - 1 ∧
      (run_phase2 db outcome tickers).2.preds =
        db.preds ++ tickers.filterMap (fun t => (outcome t).toOption) ∧
      (run_phase2 db outcome tickers).2.run =
        some ⟨"finished", tickers.length, tickers.length⟩ ∧
      (run_phase2 db outcome tickers).1.status = "started" := by
  rw [run_phase2_spec]
  exact ⟨errors_fold_single outcome t₀ r tickers hcount hfail hok,
    filterMap_single_fail_length outcome t₀ r tickers hcount hfail hok,
    rfl, rfl, rfl⟩

/-- C7 witness: five tickers with `T3` raising during fetch. -/
theorem claim7_witness :
    ["T1", "T2", "T3", "T4", "T5"].count "T3" = 1 ∧
      outcome5 "T3" = .error "DataUnavailable: boom" ∧
      (∀ t ∈ ["T1", "T2", "T3", "T4", "T5"], t ≠ "T3" → (outcome5 t).isOk = true) ∧
      ((run_phase2 (⟨none, []⟩ : RunDB Nat) outcome5
            ["T1", "T2", "T3", "T4", "T5"]).1.errors =
          [("T3", "DataUnavailable: boom")] ∧
        (run_phase2 (⟨none, []⟩ : RunDB Nat) outcome5
            ["T1", "T2", "T3", "T4", "T5"]).1.stored =
          ["T1", "T2", "T3", "T4", "T5"].length - 1 ∧
        (run_phase2 (⟨none, []⟩ : RunDB Nat) outcome5
            ["T1", "T2", "T3", "T4", "T5"]).2.preds =
          (⟨none, []⟩ : RunDB Nat).preds ++
            ["T1", "T2", "T3", "T4", "T5"].filterMap
              (fun t => (outcome5 t).toOption) ∧
        (run_phase2 (⟨none, []⟩ : RunDB Nat) outcome5
            ["T1", "T2", "T3", "T4", "T5"]).2.run =
          some ⟨"finished", ["T1", "T2", "T3", "T4", "T5"].length,
            ["T1", "T2", "T3", "T4", "T5"].length⟩ ∧
        (run_phase2 (⟨none, []⟩ : RunDB Nat) outcome5
            ["T1", "T2", "T3", "T4", "T5"]).1.status = "started") :=
  ⟨by decide, by with_unfolding_all rfl, by decide,
    claim7_error_isolation (⟨none, []⟩ : RunDB Nat) outcome5
      ["T1", "T2", "T3", "T4", "T5"] "T3" "DataUnavailable: boom"
      (by decide) (by with_unfolding_all rfl) (by decide)⟩

/-- C8 (the code is wrong here): in the end-to-end scenario — `AAPL` with
ample (40-row, fresh) price history next to `BADTICKER` with none — the
run stores *zero* predictions: `_run_one_ticker` raises
`TypeError: build_features() got an unexpected keyword argument
horizon_days` for `AAPL` too, because `api.py` passes `horizon_days` to a
`build_features` that only accepts `df`; both tickers land in the errors
map and no `Prediction` row is persisted, while the claim expects one
prediction for `AAPL` and only `BADTICKER` in the errors map. -/
theorem claim8_horizon_kwarg_bug :
    (load_stock_data (envC8 "AAPL") "AAPL" (some (365 * 6)) .daily .auto).1.isSome =
        true ∧
      (run_phase2 (⟨none, []⟩ : RunDB Unit)
          (fun t => run_one_ticker (envC8 t) t) ["AAPL", "BADTICKER"]).1.stored = 0 ∧
      (run_phase2 (⟨none, []⟩ : RunDB Unit)
          (fun t => run_one_ticker (envC8 t) t) ["AAPL", "BADTICKER"]).1.errors =
        [("AAPL",
            "TypeError: build_features() got an unexpected keyword argument horizon_days"),
          ("BADTICKER", "ValueError: Not enough data")] ∧
      (run_phase2 (⟨none, []⟩ : RunDB Unit)
          (fun t => run_one_ticker (envC8 t) t) ["AAPL", "BADTICKER"]).2.preds = [] := by
  refine ⟨by with_unfolding_all rfl, by with_unfolding_all rfl,
    by with_unfolding_all rfl, by with_unfolding_all rfl⟩

/-- C10: `run_phase2` is fully synchronous — its response (which reports
`status: "started"`) is only built after `finish_run`, so the run-state
any later poll reads is already `finished` with `completed = total`; a
client that learns the `run_id` from the response can never observe an
in-progress state. -/
theorem claim10_synchronous_run {α : Type} (db : RunDB α)
    (outcome : String → Except String α) (tickers : List String) :
    (run_phase2 db outcome tickers).1.status = "started" ∧
      run_status (run_phase2 db outcome tickers).2 =
        some ⟨"finished", tickers.length, tickers.length,
          pyRound1 (100 * (tickers.length : ℚ) / max 1 (tickers.length : ℚ))⟩ ∧
      (∀ s, run_status (run_phase2 db outcome tickers).2 = some s →
        (s.status = "finished" ∧ s.completed = s.total)) := by
  rw [run_phase2_spec]
  refine ⟨rfl, rfl, ?_⟩
  intro s hs
  have hs2 := Option.some.inj hs
  rw [← hs2]
  exact ⟨rfl, rfl⟩

end WMR
